import Mathlib

/-!
# AES-GCM content cipher builder of `s3crypto`

A shallow embedding of `service/s3/s3crypto/aes_gcm_content_cipher.go`.

Conventions of the embedding:

* A Go result pair `(T, error)` is a Lean pair whose second component is
  `Option GoError` (`none` is the `nil` error); a result that the Go code may
  return as `nil` is an `Option` in the first component.
* Every call that the Go code makes on an interface value (the generator, the
  engine) or into a function that lives outside the file (`newAESGCM`) appends
  one `Event` to a trace, in program order, so that statements about which
  calls happen, and with which arguments, can be made.
* A generator is called at most once per build, so each of its methods is given
  as the function from the arguments of that one call to its result.
* Byte slices are lists of naturals, Go `int`s are integers.
-/

namespace S3Crypto

/-! ## Data model -/

abbrev Bytes := List Nat

/-- Error values. The length errors and the authentication failure are the
error kinds the engine can raise; `other` stands for any error value of a
collaborator (key generator, transport). `panicked` is not an error value: it
marks a call that panics instead of returning. -/
inductive GoError where
  | keyLength (n : Nat)
  | nonceLength (n : Nat)
  | authenticationFailure
  | other (msg : String)
  | panicked (msg : String)
  deriving DecidableEq, Repr

/-- A length error: the key or the nonce has the wrong number of bytes. -/
def GoError.isLengthError : GoError → Bool
  | .keyLength _ => true
  | .nonceLength _ => true
  | _ => false

/-- Stands for `aws.Context`: a cancellation context, told apart by its identity only. -/
structure Context where
  ident : Nat
  deriving DecidableEq, Repr

/-- Modelled from the spec: the struct `CipherData` (declared outside this file),
with the raw key, the IV, the algorithm identifier, the tag length, and the
optional generator-specific wrapped-key metadata, which is not interpreted here. -/
structure CipherData where
  Key : Bytes
  IV : Bytes
  CEKAlgorithm : String
  TagLength : String
  WrappedKeyMetadata : Option Bytes
  deriving DecidableEq, Repr

/-- An `io.Reader`, given by what reading it to the end delivers: the bytes
`data`, followed by the error `err` (`none` for a clean end of stream). -/
structure Reader where
  data : Bytes
  err : Option GoError
  deriving DecidableEq, Repr

/-- An `io.ReadCloser`: a reader that can also be closed. -/
structure ReadCloser extends Reader where
  closed : Bool
  deriving DecidableEq, Repr

/-- Result of `ioutil.ReadAll`: everything the reader delivers and its final error. -/
def ReadAll (r : Reader) : Bytes × Option GoError := (r.data, r.err)

/-- Closing an `io.ReadCloser`. -/
def ReadCloser.Close (rc : ReadCloser) : ReadCloser := { rc with closed := true }

/-- The interface `Cipher` of the engine: two stream transforms. -/
structure Cipher where
  Encrypt : Reader → Reader
  Decrypt : Reader → Reader

/-- Result of one `CipherData` generation call, the Go pair `(CipherData, error)`. -/
abbrev Generated := CipherData × Option GoError

/-- A value of interface type `CipherDataGenerator`. `GenerateCipherData` is the
method every generator has. Each of the other fields is `some` exactly when
the dynamic type of the value also implements the interface of that name
(`CipherDataGeneratorWithContext`, `CipherDataGeneratorWithCEKAlg`,
`CipherDataGeneratorWithCEKAlgWithContext`, `deprecatedFeatures`), and then
holds the method of that interface. -/
structure CipherDataGenerator where
  GenerateCipherData : Int → Int → Generated
  GenerateCipherDataWithContext : Option (Context → Int → Int → Generated)
  GenerateCipherDataWithCEKAlg : Option (Int → Int → String → Generated)
  GenerateCipherDataWithCEKAlgWithContext : Option (Context → Int → Int → String → Generated)
  isUsingDeprecatedFeatures : Option (Option GoError)

/-- One call leaving the file. `Read` is a read of a stream; no function of the
file makes one, the streams are only handed to the engine. -/
inductive Event where
  | isUsingDeprecatedFeatures
  | GenerateCipherDataWithCEKAlgWithContext (ctx : Context) (keySize ivSize : Int) (cekAlg : String)
  | GenerateCipherDataWithCEKAlg (keySize ivSize : Int) (cekAlg : String)
  | GenerateCipherDataWithContext (ctx : Context) (keySize ivSize : Int)
  | GenerateCipherData (keySize ivSize : Int)
  | newAESGCM (cd : CipherData)
  | Encrypt (src : Reader)
  | Decrypt (src : Reader)
  | Read (src : Reader)
  deriving DecidableEq, Repr

/-- A computed value together with the calls made while computing it. -/
structure Effect (α : Type) where
  value : α
  trace : List Event

/-- What the file takes from the rest of the package: the constant
`AESGCMNoPadding`, the context `aws.BackgroundContext()`, and the engine
constructor `newAESGCM`, which returns either an engine or an error. -/
structure Env where
  AESGCMNoPadding : String
  BackgroundContext : Context
  newAESGCM : CipherData → Except GoError Cipher

/-! ## The source file -/

def gcmKeySize : Int := 32

def gcmNonceSize : Int := 12

structure gcmContentCipherBuilder where
  generator : CipherDataGenerator

/-- AESGCMContentCipher will use AES GCM for the main cipher. -/
structure aesGCMContentCipher where
  CipherData : CipherData
  Cipher : Cipher

/-- Modelled from the spec: the struct `CryptoReadCloser` (declared outside this
file); `Body` is the stream that closing acts on, `Decrypter` the stream that
reading draws from. -/
structure CryptoReadCloser where
  Body : ReadCloser
  Decrypter : Reader

/-- Modelled from the spec: `CryptoReadCloser.Close` (outside this file); closing
the wrapper closes the wrapped source. -/
def CryptoReadCloser.Close (rc : CryptoReadCloser) : CryptoReadCloser :=
  { rc with Body := rc.Body.Close }

/-- Modelled from the spec: `CryptoReadCloser.Read` (outside this file), read to
the end; the bytes come from `Decrypter`. -/
def CryptoReadCloser.ReadAll (rc : CryptoReadCloser) : Bytes × Option GoError :=
  S3Crypto.ReadAll rc.Decrypter

def gcmContentCipherBuilder.isUsingDeprecatedFeatures (builder : gcmContentCipherBuilder) :
    Effect (Option GoError) :=
  match builder.generator.isUsingDeprecatedFeatures with
  | some feature => ⟨feature, [Event.isUsingDeprecatedFeatures]⟩
  | none => ⟨none, []⟩

def AESGCMContentCipherBuilder (generator : CipherDataGenerator) : gcmContentCipherBuilder :=
  ⟨generator⟩

def newAESGCMContentCipher (env : Env) (cd : CipherData) :
    Effect (Option aesGCMContentCipher × Option GoError) :=
  let cd : CipherData := { cd with CEKAlgorithm := env.AESGCMNoPadding, TagLength := "128" }
  match env.newAESGCM cd with
  | .error err => ⟨(none, some err), [Event.newAESGCM cd]⟩
  | .ok cipher => ⟨(some ⟨cd, cipher⟩, none), [Event.newAESGCM cd]⟩

def gcmContentCipherBuilder.ContentCipherWithContext (env : Env)
    (builder : gcmContentCipherBuilder) (ctx : Context) :
    Effect (Option aesGCMContentCipher × Option GoError) :=
  let gen : Effect Generated :=
    match builder.generator.GenerateCipherDataWithCEKAlgWithContext with
    | some v =>
      ⟨v ctx gcmKeySize gcmNonceSize env.AESGCMNoPadding,
        [Event.GenerateCipherDataWithCEKAlgWithContext ctx gcmKeySize gcmNonceSize
          env.AESGCMNoPadding]⟩
    | none =>
      match builder.generator.GenerateCipherDataWithCEKAlg with
      | some v =>
        ⟨v gcmKeySize gcmNonceSize env.AESGCMNoPadding,
          [Event.GenerateCipherDataWithCEKAlg gcmKeySize gcmNonceSize env.AESGCMNoPadding]⟩
      | none =>
        match builder.generator.GenerateCipherDataWithContext with
        | some v =>
          ⟨v ctx gcmKeySize gcmNonceSize,
            [Event.GenerateCipherDataWithContext ctx gcmKeySize gcmNonceSize]⟩
        | none =>
          ⟨builder.generator.GenerateCipherData gcmKeySize gcmNonceSize,
            [Event.GenerateCipherData gcmKeySize gcmNonceSize]⟩
  match gen.value.2 with
  | some err => ⟨(none, some err), gen.trace⟩
  | none =>
    let built := newAESGCMContentCipher env gen.value.1
    ⟨built.value, gen.trace ++ built.trace⟩

def gcmContentCipherBuilder.ContentCipher (env : Env) (builder : gcmContentCipherBuilder) :
    Effect (Option aesGCMContentCipher × Option GoError) :=
  builder.ContentCipherWithContext env env.BackgroundContext

/-- What a method with a pointer receiver leaves behind: its results, the
receiver after the call, and the calls it made. -/
structure MethodResult (α : Type) where
  value : α
  receiver : aesGCMContentCipher
  trace : List Event

def aesGCMContentCipher.EncryptContents (cc : aesGCMContentCipher) (src : Reader) :
    MethodResult (Reader × Option GoError) :=
  ⟨(cc.Cipher.Encrypt src, none), cc, [Event.Encrypt src]⟩

def aesGCMContentCipher.DecryptContents (cc : aesGCMContentCipher) (src : ReadCloser) :
    MethodResult (CryptoReadCloser × Option GoError) :=
  let reader := cc.Cipher.Decrypt src.toReader
  ⟨(⟨src, reader⟩, none), cc, [Event.Decrypt src.toReader]⟩

def aesGCMContentCipher.GetCipherData (cc : aesGCMContentCipher) : S3Crypto.CipherData :=
  cc.CipherData

/-! ## Vocabulary for the statements -/

/-- The four call shapes of a generator. -/
inductive Shape where
  | CEKAlgWithContext
  | CEKAlg
  | WithContext
  | Baseline
  deriving DecidableEq, Repr

/-- Place of a shape in the preference order, most preferred first. -/
def Shape.rank : Shape → Nat
  | .CEKAlgWithContext => 0
  | .CEKAlg => 1
  | .WithContext => 2
  | .Baseline => 3

/-- Whether the generator has the method of the shape. -/
def CipherDataGenerator.supports (g : CipherDataGenerator) : Shape → Bool
  | .CEKAlgWithContext => g.GenerateCipherDataWithCEKAlgWithContext.isSome
  | .CEKAlg => g.GenerateCipherDataWithCEKAlg.isSome
  | .WithContext => g.GenerateCipherDataWithContext.isSome
  | .Baseline => true

/-- The method of the shape applied to the arguments that shape takes; `none`
when the generator does not have the method. -/
def CipherDataGenerator.invoke (g : CipherDataGenerator) (s : Shape) (ctx : Context)
    (keySize ivSize : Int) (cekAlg : String) : Option Generated :=
  match s with
  | .CEKAlgWithContext =>
    g.GenerateCipherDataWithCEKAlgWithContext.map (fun v => v ctx keySize ivSize cekAlg)
  | .CEKAlg => g.GenerateCipherDataWithCEKAlg.map (fun v => v keySize ivSize cekAlg)
  | .WithContext => g.GenerateCipherDataWithContext.map (fun v => v ctx keySize ivSize)
  | .Baseline => some (g.GenerateCipherData keySize ivSize)

/-- The trace entry of a call of the shape: the context appears for the two
context-aware shapes only, the algorithm for the two algorithm-aware ones only. -/
def Shape.call (s : Shape) (ctx : Context) (keySize ivSize : Int) (cekAlg : String) : Event :=
  match s with
  | .CEKAlgWithContext => Event.GenerateCipherDataWithCEKAlgWithContext ctx keySize ivSize cekAlg
  | .CEKAlg => Event.GenerateCipherDataWithCEKAlg keySize ivSize cekAlg
  | .WithContext => Event.GenerateCipherDataWithContext ctx keySize ivSize
  | .Baseline => Event.GenerateCipherData keySize ivSize

/-- The shape of a generation call, `none` for any other event. -/
def Event.shape? : Event → Option Shape
  | .GenerateCipherDataWithCEKAlgWithContext _ _ _ _ => some .CEKAlgWithContext
  | .GenerateCipherDataWithCEKAlg _ _ _ => some .CEKAlg
  | .GenerateCipherDataWithContext _ _ _ => some .WithContext
  | .GenerateCipherData _ _ => some .Baseline
  | _ => none

/-- The generation calls of a trace, in order. -/
def generatorCalls (tr : List Event) : List Event :=
  tr.filter (fun e => e.shape?.isSome)

/-- What the build does once the selected shape and its result are known. -/
def buildFrom (env : Env) (first : Event) (r : Generated) :
    Effect (Option aesGCMContentCipher × Option GoError) :=
  match r.2 with
  | some err => ⟨(none, some err), [first]⟩
  | none => ⟨(newAESGCMContentCipher env r.1).value, first :: (newAESGCMContentCipher env r.1).trace⟩

/-- A call on a content cipher. -/
inductive Call where
  | EncryptContents (src : Reader)
  | DecryptContents (src : ReadCloser)
  | GetCipherData

/-- One call on a content cipher: the cipher after the call and the calls made.
`GetCipherData` has a value receiver and works on a copy. -/
def aesGCMContentCipher.perform (cc : aesGCMContentCipher) :
    Call → aesGCMContentCipher × List Event
  | .EncryptContents src => ((cc.EncryptContents src).receiver, (cc.EncryptContents src).trace)
  | .DecryptContents src => ((cc.DecryptContents src).receiver, (cc.DecryptContents src).trace)
  | .GetCipherData => (cc, [])

/-- A sequence of calls on a content cipher, one after the other. -/
def aesGCMContentCipher.performAll (cc : aesGCMContentCipher) :
    List Call → aesGCMContentCipher × List Event
  | [] => (cc, [])
  | c :: cs =>
    (((cc.perform c).1.performAll cs).1, (cc.perform c).2 ++ ((cc.perform c).1.performAll cs).2)

/-! ## The engine

The engine (`newAESGCM` and the streams it hands out) is not part of the file.
It is AES in Galois/Counter Mode with a 96-bit nonce, a 128-bit tag and no
additional data; the builder asks the generator for the 32-byte key of AES-256. -/

/-- Modelled from the spec: part of the AES block cipher of the engine (outside this
file); multiplication by x in GF(2^8) modulo x^8 + x^4 + x^3 + x + 1. -/
def xtime (b : Nat) : Nat :=
  if 128 ≤ b % 256 then ((b * 2) % 256) ^^^ 0x1b else (b * 2) % 256

/-- Modelled from the spec: part of the AES block cipher of the engine; the product
in GF(2^8). -/
def gmul (a b : Nat) : Nat :=
  ((List.range 8).foldl
    (fun (acc : Nat × Nat) i => (if b.testBit i then acc.1 ^^^ acc.2 else acc.1, xtime acc.2))
    (0, a % 256)).1

/-- Modelled from the spec: part of the AES block cipher of the engine; the inverse
in GF(2^8) as the 254th power, with 0 sent to 0. -/
def ginv (a : Nat) : Nat :=
  (List.range 254).foldl (fun acc _ => gmul acc a) 1

/-- Modelled from the spec: part of the AES block cipher of the engine; rotation of
a byte to the left. -/
def rotl8 (b n : Nat) : Nat := ((b <<< n) ||| (b >>> (8 - n))) % 256

/-- Modelled from the spec: part of the AES block cipher of the engine; the S-box,
the inverse in GF(2^8) followed by the affine map. -/
def subByte (a : Nat) : Nat :=
  let b := ginv a
  b ^^^ rotl8 b 1 ^^^ rotl8 b 2 ^^^ rotl8 b 3 ^^^ rotl8 b 4 ^^^ 0x63

/-- Modelled from the spec: part of the AES block cipher of the engine; bytewise
exclusive or. -/
def xorBytes (a b : Bytes) : Bytes := List.zipWith (fun x y => x ^^^ y) a b

/-- Modelled from the spec: part of the AES block cipher of the engine; the round
constant, a power of x in GF(2^8). -/
def rcon (i : Nat) : Nat := (List.range (i - 1)).foldl (fun r _ => xtime r) 1

/-- Modelled from the spec: part of the AES block cipher of the engine; word `i` of
the key schedule of a key of `nk` words from the words before it. -/
def nextWord (nk : Nat) (w : List Bytes) (i : Nat) : Bytes :=
  let prev := w.getD (i - 1) []
  let temp :=
    if i % nk = 0 then xorBytes ((prev.rotateLeft 1).map subByte) [rcon (i / nk), 0, 0, 0]
    else if 6 < nk ∧ i % nk = 4 then prev.map subByte
    else prev
  xorBytes (w.getD (i - nk) []) temp

/-- Modelled from the spec: part of the AES block cipher of the engine; the key
schedule of a key of `nk = 4`, `6` or `8` words (16, 24 or 32 bytes): the `nk`
words of the key followed by the words up to `4 * (nk + 7)`, which is 44, 52 or 60
words. -/
def keyExpansion (key : Bytes) : List Bytes :=
  let nk := key.length / 4
  (List.range' nk (4 * (nk + 7) - nk)).foldl (fun w i => w ++ [nextWord nk w i])
    ((List.range nk).map (fun i => (key.drop (4 * i)).take 4))

/-- Modelled from the spec: part of the AES block cipher of the engine; the 16
bytes of round key `r`. -/
def roundKey (w : List Bytes) (r : Nat) : Bytes :=
  w.getD (4 * r) [] ++ w.getD (4 * r + 1) [] ++ w.getD (4 * r + 2) [] ++ w.getD (4 * r + 3) []

/-- Modelled from the spec: part of the AES block cipher of the engine; the state
is stored column by column, row `r` moves left by `r` places. -/
def shiftRows (s : Bytes) : Bytes :=
  (List.range 16).map (fun i => s.getD (4 * ((i / 4 + i % 4) % 4) + i % 4) 0)

/-- Modelled from the spec: part of the AES block cipher of the engine; one column
of the state multiplied by the fixed matrix. -/
def mixColumn (a : Bytes) : Bytes :=
  let a0 := a.getD 0 0
  let a1 := a.getD 1 0
  let a2 := a.getD 2 0
  let a3 := a.getD 3 0
  [ gmul 2 a0 ^^^ gmul 3 a1 ^^^ a2 ^^^ a3,
    a0 ^^^ gmul 2 a1 ^^^ gmul 3 a2 ^^^ a3,
    a0 ^^^ a1 ^^^ gmul 2 a2 ^^^ gmul 3 a3,
    gmul 3 a0 ^^^ a1 ^^^ a2 ^^^ gmul 2 a3 ]

/-- Modelled from the spec: part of the AES block cipher of the engine; `mixColumn`
on each of the four columns. -/
def mixColumns (s : Bytes) : Bytes :=
  (List.range 4).flatMap (fun c => mixColumn ((s.drop (4 * c)).take 4))

/-- Modelled from the spec: the block cipher of the engine (outside this file),
AES on one 16-byte block. A key of `nk = 4`, `6` or `8` words (16, 24 or 32 bytes)
takes `nk + 6` rounds, which is 14 rounds for the 32-byte key of the scheme. -/
def aesEncryptBlock (key block : Bytes) : Bytes :=
  let nk := key.length / 4
  let w := keyExpansion key
  let s0 := xorBytes block (roundKey w 0)
  let s := (List.range' 1 (nk + 5)).foldl
    (fun s r => xorBytes (mixColumns (shiftRows (s.map subByte))) (roundKey w r)) s0
  xorBytes (shiftRows (s.map subByte)) (roundKey w (nk + 6))


/-- Modelled from the spec: part of the engine; the number a byte string denotes,
most significant byte first. -/
def fromBytes (b : Bytes) : Nat := b.foldl (fun acc x => acc * 256 + x % 256) 0

/-- Modelled from the spec: part of the engine; the `width` low bytes of a number,
most significant byte first. -/
def toBytes (width n : Nat) : Bytes :=
  (List.range width).map (fun i => (n / 256 ^ (width - 1 - i)) % 256)

/-- Modelled from the spec: part of the engine; the product in GF(2^128) in the bit
order of GCM. -/
def gfmul128 (x y : Nat) : Nat :=
  ((List.range 128).foldl
    (fun (acc : Nat × Nat) i =>
      (if x.testBit (127 - i) then acc.1 ^^^ acc.2 else acc.1,
       if acc.2 % 2 = 1 then (acc.2 >>> 1) ^^^ (0xe1 <<< 120) else acc.2 >>> 1))
    (0, y)).1

/-- Modelled from the spec: part of the engine; the hash of GCM over 128-bit blocks
under the hash key `h`. -/
def ghash (h : Nat) (blocks : List Nat) : Nat :=
  blocks.foldl (fun y x => gfmul128 (y ^^^ x) h) 0

/-- Modelled from the spec: part of the engine; a byte string cut into 128-bit
blocks, the last one filled up with zero bytes. -/
def paddedBlocks (c : Bytes) : List Nat :=
  (List.range ((c.length + 15) / 16)).map
    (fun j => fromBytes ((((c.drop (16 * j)).take 16) ++ List.replicate 16 0).take 16))

/-- Modelled from the spec: part of the engine; the 12-byte nonce followed by a
32-bit block counter. -/
def counterBlock (nonce : Bytes) (c : Nat) : Bytes := nonce ++ toBytes 4 (c % 2 ^ 32)

/-- Modelled from the spec: part of the engine; counter mode under the block
function `E`: byte `i` is combined with byte `i % 16` of the encrypted counter
block `2 + i / 16`. -/
def gctr (E : Bytes → Bytes) (nonce : Bytes) (x : Bytes) : Bytes :=
  x.mapIdx (fun i b => b ^^^ (E (counterBlock nonce (2 + i / 16))).getD (i % 16) 0)

/-- Modelled from the spec: part of the engine; the 128-bit authentication tag of
the ciphertext `c`, with no additional data. -/
def gcmTag (E : Bytes → Bytes) (nonce : Bytes) (c : Bytes) : Bytes :=
  let h := fromBytes (E (List.replicate 16 0))
  let s := ghash h (paddedBlocks c ++ [(8 * c.length) % 2 ^ 64])
  toBytes 16 (fromBytes (E (counterBlock nonce 1)) ^^^ s)

/-- Modelled from the spec: part of the engine; the ciphertext followed by the
authentication tag. -/
def gcmSeal (E : Bytes → Bytes) (nonce plaintext : Bytes) : Bytes :=
  let c := gctr E nonce plaintext
  c ++ gcmTag E nonce c

/-- Modelled from the spec: part of the engine; the input must end with the tag of
what precedes it, and then the plaintext is returned; `none` is a failed check. -/
def gcmOpen (E : Bytes → Bytes) (nonce sealed : Bytes) : Option Bytes :=
  if sealed.length < 16 then none
  else
    let c := sealed.take (sealed.length - 16)
    let t := sealed.drop (sealed.length - 16)
    if gcmTag E nonce c = t then some (gctr E nonce c) else none

/-- What a read of an engine stream panics with when the nonce is not 12 bytes long. -/
def incorrectNonceLength : GoError :=
  GoError.panicked "crypto/cipher: incorrect nonce length given to GCM"

/-- Modelled from the spec: the engine built by `newAESGCM` (outside this file).
The encrypting stream delivers the ciphertext of the source followed by the
authentication tag; the decrypting stream expects the tag at the end of its
source, checks it, and reports a failed check as an authentication failure.
An error of the source stream is passed on unchanged. The engine keeps the nonce
it was given; when that is not 12 bytes long, a read of either stream panics
once the source has been read. -/
def aesGCM (key nonce : Bytes) : Cipher where
  Encrypt := fun src =>
    match src.err with
    | some e => ⟨[], some e⟩
    | none =>
      if nonce.length = 12 then ⟨gcmSeal (aesEncryptBlock key) nonce src.data, none⟩
      else ⟨[], some incorrectNonceLength⟩
  Decrypt := fun src =>
    match src.err with
    | some e => ⟨[], some e⟩
    | none =>
      if nonce.length = 12 then
        match gcmOpen (aesEncryptBlock key) nonce src.data with
        | some p => ⟨p, none⟩
        | none => ⟨[], some GoError.authenticationFailure⟩
      else ⟨[], some incorrectNonceLength⟩

/-- Modelled from the spec: `newAESGCM` (outside this file), which derives the
engine from the key and the nonce. The lengths it accepts are those the package
accepts, which are more than the one scheme the spec names: a key of 16, 24 or 32
bytes gives an engine, any other key length is a key length error, and the length
of the nonce is not looked at here. -/
def newAESGCM (cd : CipherData) : Except GoError Cipher :=
  if cd.Key.length = 16 ∨ cd.Key.length = 24 ∨ cd.Key.length = 32 then
    Except.ok (aesGCM cd.Key cd.IV)
  else Except.error (GoError.keyLength cd.Key.length)

/-! ## Concrete inputs -/

/-- Environment with the engine constructor `newAESGCM` above. -/
def scenarioEnv : Env := ⟨"AES/GCM/NoPadding", ⟨0⟩, newAESGCM⟩

/-- CipherData of the scenario: a key of 32 zero bytes and an IV of 12 zero bytes. -/
def scenarioCipherData : CipherData := ⟨List.replicate 32 0, List.replicate 12 0, "", "", none⟩

/-- The bytes of the text `hello world`. -/
def helloWorld : Bytes := [104, 101, 108, 108, 111, 32, 119, 111, 114, 108, 100]

/-- CipherData as a generator with its own idea of the scheme may return it. -/
def foreignCipherData : CipherData :=
  ⟨List.replicate 32 7, List.replicate 12 9, "AES/CBC/PKCS5Padding", "96", some [1, 2, 3]⟩

/-- CipherData with a 16-byte key. -/
def shortKeyCipherData : CipherData := ⟨List.replicate 16 0, List.replicate 12 0, "", "", none⟩

/-- CipherData with a 24-byte key. -/
def midKeyCipherData : CipherData := ⟨List.replicate 24 0, List.replicate 12 0, "", "", none⟩

/-- CipherData with a 32-byte key and an 11-byte IV. -/
def shortIVCipherData : CipherData := ⟨List.replicate 32 0, List.replicate 11 0, "", "", none⟩

/-- CipherData with a 20-byte key, which is no AES key size. -/
def oddKeyCipherData : CipherData := ⟨List.replicate 20 0, List.replicate 12 0, "", "", none⟩

/-- A generator with the baseline method only, which returns `r`. -/
def baselineGenerator (r : Generated) : CipherDataGenerator :=
  ⟨fun _ _ => r, none, none, none, none⟩

def deprecationError : GoError := GoError.other "deprecated configuration in use"

/-- A baseline generator that works and reports deprecated usage. -/
def deprecatedGenerator : CipherDataGenerator :=
  ⟨fun _ _ => (scenarioCipherData, none), none, none, none, some (some deprecationError)⟩

def generationError : GoError := GoError.other "key management unavailable"

/-- A generator with all four methods: the most capable one fails, the other three work. -/
def failingGenerator : CipherDataGenerator :=
  ⟨fun _ _ => (scenarioCipherData, none),
   some (fun _ _ _ => (scenarioCipherData, none)),
   some (fun _ _ _ => (scenarioCipherData, none)),
   some (fun _ _ _ _ => (scenarioCipherData, some generationError)),
   none⟩

/-! ## Lemmas on the engine -/

theorem length_toBytes (width n : Nat) : (toBytes width n).length = width := by
  simp [toBytes]

theorem length_gcmTag (E : Bytes → Bytes) (nonce c : Bytes) : (gcmTag E nonce c).length = 16 := by
  simp [gcmTag, length_toBytes]

theorem length_gctr (E : Bytes → Bytes) (nonce x : Bytes) : (gctr E nonce x).length = x.length := by
  simp [gctr]

theorem gctr_gctr (E : Bytes → Bytes) (nonce x : Bytes) : gctr E nonce (gctr E nonce x) = x := by
  apply List.ext_getElem
  · simp [gctr]
  · intro i h1 h2
    simp [gctr, Nat.xor_assoc]

theorem gcmOpen_gcmSeal (E : Bytes → Bytes) (nonce p : Bytes) :
    gcmOpen E nonce (gcmSeal E nonce p) = some p := by
  have hlen : (gctr E nonce p ++ gcmTag E nonce (gctr E nonce p)).length - 16
      = (gctr E nonce p).length := by
    simp [length_gcmTag]
  unfold gcmOpen gcmSeal
  simp only [hlen, List.take_left, List.drop_left]
  simp [length_gcmTag, gctr_gctr]

/-! ## Lemmas on the dispatch -/

theorem dispatch_of_first_supported (env : Env) (g : CipherDataGenerator) (ctx : Context)
    (s : Shape) (r : Generated)
    (hs : g.invoke s ctx gcmKeySize gcmNonceSize env.AESGCMNoPadding = some r)
    (hfirst : ∀ s' : Shape, s'.rank < s.rank → g.supports s' = false) :
    gcmContentCipherBuilder.ContentCipherWithContext env ⟨g⟩ ctx
      = buildFrom env (s.call ctx gcmKeySize gcmNonceSize env.AESGCMNoPadding) r := by
  obtain ⟨base, wc, wa, wac, dep⟩ := g
  have h0 := hfirst Shape.CEKAlgWithContext
  have h1 := hfirst Shape.CEKAlg
  have h2 := hfirst Shape.WithContext
  cases s
  · cases wac with
    | none => exact absurd hs (by intro h; cases h)
    | some v =>
      cases Option.some.inj hs
      simp only [gcmContentCipherBuilder.ContentCipherWithContext, buildFrom, Shape.call]
      cases (v ctx gcmKeySize gcmNonceSize env.AESGCMNoPadding).2 <;> rfl
  · cases wac with
    | some v => exact absurd (h0 (by decide)) (by intro h; cases h)
    | none =>
      cases wa with
      | none => exact absurd hs (by intro h; cases h)
      | some v =>
        cases Option.some.inj hs
        simp only [gcmContentCipherBuilder.ContentCipherWithContext, buildFrom, Shape.call]
        cases (v gcmKeySize gcmNonceSize env.AESGCMNoPadding).2 <;> rfl
  · cases wac with
    | some v => exact absurd (h0 (by decide)) (by intro h; cases h)
    | none =>
      cases wa with
      | some v => exact absurd (h1 (by decide)) (by intro h; cases h)
      | none =>
        cases wc with
        | none => exact absurd hs (by intro h; cases h)
        | some v =>
          cases Option.some.inj hs
          simp only [gcmContentCipherBuilder.ContentCipherWithContext, buildFrom, Shape.call]
          cases (v ctx gcmKeySize gcmNonceSize).2 <;> rfl
  · cases wac with
    | some v => exact absurd (h0 (by decide)) (by intro h; cases h)
    | none =>
      cases wa with
      | some v => exact absurd (h1 (by decide)) (by intro h; cases h)
      | none =>
        cases wc with
        | some v => exact absurd (h2 (by decide)) (by intro h; cases h)
        | none =>
          cases Option.some.inj hs
          simp only [gcmContentCipherBuilder.ContentCipherWithContext, buildFrom, Shape.call]
          cases (base gcmKeySize gcmNonceSize).2 <;> rfl

theorem exists_first_supported (g : CipherDataGenerator) (ctx : Context)
    (keySize ivSize : Int) (cekAlg : String) :
    ∃ (s : Shape) (r : Generated), g.invoke s ctx keySize ivSize cekAlg = some r ∧
      g.supports s = true ∧ ∀ s' : Shape, s'.rank < s.rank → g.supports s' = false := by
  obtain ⟨base, wc, wa, wac, dep⟩ := g
  cases wac with
  | some v =>
    refine ⟨Shape.CEKAlgWithContext, _, rfl, rfl, ?_⟩
    intro s' hs'
    cases s' <;> exact absurd hs' (by decide)
  | none =>
    cases wa with
    | some v =>
      refine ⟨Shape.CEKAlg, _, rfl, rfl, ?_⟩
      intro s' hs'
      cases s' <;> first | rfl | exact absurd hs' (by decide)
    | none =>
      cases wc with
      | some v =>
        refine ⟨Shape.WithContext, _, rfl, rfl, ?_⟩
        intro s' hs'
        cases s' <;> first | rfl | exact absurd hs' (by decide)
      | none =>
        refine ⟨Shape.Baseline, _, rfl, rfl, ?_⟩
        intro s' hs'
        cases s' <;> first | rfl | exact absurd hs' (by decide)

theorem trace_newAESGCMContentCipher (env : Env) (cd : CipherData) :
    (newAESGCMContentCipher env cd).trace
      = [Event.newAESGCM { cd with CEKAlgorithm := env.AESGCMNoPadding, TagLength := "128" }] := by
  unfold newAESGCMContentCipher
  dsimp only
  split <;> rfl

theorem generatorCalls_buildFrom (env : Env) (s : Shape) (ctx : Context) (keySize ivSize : Int)
    (cekAlg : String) (r : Generated) :
    generatorCalls (buildFrom env (s.call ctx keySize ivSize cekAlg) r).trace
      = [s.call ctx keySize ivSize cekAlg] := by
  unfold buildFrom
  cases r.2 <;> cases s <;>
    simp [generatorCalls, Shape.call, Event.shape?, trace_newAESGCMContentCipher]

/-! ## The claims -/

/-- C1: for every generator and context, ContentCipherWithContext makes exactly one
generation call; its shape is supported by the generator and no shape that comes
earlier in the order context+algorithm, algorithm only, context only, baseline is
supported. Spelled out: context+algorithm when the generator has it; else algorithm
only when it has that; else context only when it has that; else baseline. -/
theorem dispatch_calls_first_supported_shape (env : Env) (builder : gcmContentCipherBuilder)
    (ctx : Context) :
    (∃ s : Shape,
      (generatorCalls (builder.ContentCipherWithContext env ctx).trace).map Event.shape?
        = [some s] ∧
      builder.generator.supports s = true ∧
      ∀ s' : Shape, s'.rank < s.rank → builder.generator.supports s' = false) ∧
    (builder.generator.GenerateCipherDataWithCEKAlgWithContext.isSome = true →
      (generatorCalls (builder.ContentCipherWithContext env ctx).trace).map Event.shape?
        = [some Shape.CEKAlgWithContext]) ∧
    (builder.generator.GenerateCipherDataWithCEKAlgWithContext.isSome = false →
      builder.generator.GenerateCipherDataWithCEKAlg.isSome = true →
      (generatorCalls (builder.ContentCipherWithContext env ctx).trace).map Event.shape?
        = [some Shape.CEKAlg]) ∧
    (builder.generator.GenerateCipherDataWithCEKAlgWithContext.isSome = false →
      builder.generator.GenerateCipherDataWithCEKAlg.isSome = false →
      builder.generator.GenerateCipherDataWithContext.isSome = true →
      (generatorCalls (builder.ContentCipherWithContext env ctx).trace).map Event.shape?
        = [some Shape.WithContext]) ∧
    (builder.generator.GenerateCipherDataWithCEKAlgWithContext.isSome = false →
      builder.generator.GenerateCipherDataWithCEKAlg.isSome = false →
      builder.generator.GenerateCipherDataWithContext.isSome = false →
      (generatorCalls (builder.ContentCipherWithContext env ctx).trace).map Event.shape?
        = [some Shape.Baseline]) := by
  obtain ⟨g⟩ := builder
  obtain ⟨s, r, hs, hsup, hfirst⟩ :=
    exists_first_supported g ctx gcmKeySize gcmNonceSize env.AESGCMNoPadding
  have hcalls :
      (generatorCalls (gcmContentCipherBuilder.ContentCipherWithContext env ⟨g⟩ ctx).trace).map
        Event.shape? = [some s] := by
    rw [dispatch_of_first_supported env g ctx s r hs hfirst, generatorCalls_buildFrom]
    cases s <;> rfl
  have h0 := hfirst Shape.CEKAlgWithContext
  have h1 := hfirst Shape.CEKAlg
  have h2 := hfirst Shape.WithContext
  refine ⟨⟨s, hcalls, hsup, hfirst⟩, ?_, ?_, ?_, ?_⟩
  · intro a
    cases s <;>
      simp_all [Shape.rank, CipherDataGenerator.supports]
  · intro a b
    cases s <;>
      simp_all [Shape.rank, CipherDataGenerator.supports]
  · intro a b c
    cases s <;>
      simp_all [Shape.rank, CipherDataGenerator.supports]
  · intro a b c
    cases s <;>
      simp_all [Shape.rank, CipherDataGenerator.supports]

/-- C2: when the selected generator method returns `cd` without error and the engine
is constructed for it, the build returns a cipher whose GetCipherData is `cd` with
CEKAlgorithm set to AESGCMNoPadding and TagLength set to "128"; key, IV and
wrapped-key metadata are those of `cd`. -/
theorem built_cipher_data_has_fixed_scheme (env : Env) (builder : gcmContentCipherBuilder)
    (ctx : Context) (s : Shape) (cd : CipherData) (cipher : Cipher)
    (hs : builder.generator.invoke s ctx gcmKeySize gcmNonceSize env.AESGCMNoPadding
      = some (cd, none))
    (hfirst : ∀ s' : Shape, s'.rank < s.rank → builder.generator.supports s' = false)
    (hc : env.newAESGCM { cd with CEKAlgorithm := env.AESGCMNoPadding, TagLength := "128" }
      = Except.ok cipher) :
    ∃ cc : aesGCMContentCipher,
      (builder.ContentCipherWithContext env ctx).value = (some cc, none) ∧
      cc.GetCipherData
        = { cd with CEKAlgorithm := env.AESGCMNoPadding, TagLength := "128" } ∧
      cc.GetCipherData.CEKAlgorithm = env.AESGCMNoPadding ∧
      cc.GetCipherData.TagLength = "128" ∧
      cc.GetCipherData.Key = cd.Key ∧
      cc.GetCipherData.IV = cd.IV ∧
      cc.GetCipherData.WrappedKeyMetadata = cd.WrappedKeyMetadata := by
  obtain ⟨g⟩ := builder
  rw [dispatch_of_first_supported env g ctx s _ hs hfirst]
  refine ⟨⟨{ cd with CEKAlgorithm := env.AESGCMNoPadding, TagLength := "128" }, cipher⟩,
    ?_, rfl, rfl, rfl, rfl, rfl, rfl⟩
  simp only [buildFrom, newAESGCMContentCipher, hc]

theorem built_cipher_data_has_fixed_scheme_witness :
    ∃ cc : aesGCMContentCipher,
      (gcmContentCipherBuilder.ContentCipherWithContext scenarioEnv
        ⟨baselineGenerator (foreignCipherData, none)⟩ ⟨1⟩).value = (some cc, none) ∧
      cc.GetCipherData
        = { foreignCipherData with CEKAlgorithm := "AES/GCM/NoPadding", TagLength := "128" } ∧
      cc.GetCipherData.CEKAlgorithm = "AES/GCM/NoPadding" ∧
      cc.GetCipherData.TagLength = "128" ∧
      cc.GetCipherData.Key = foreignCipherData.Key ∧
      cc.GetCipherData.IV = foreignCipherData.IV ∧
      cc.GetCipherData.WrappedKeyMetadata = foreignCipherData.WrappedKeyMetadata :=
  built_cipher_data_has_fixed_scheme scenarioEnv ⟨baselineGenerator (foreignCipherData, none)⟩
    ⟨1⟩ Shape.Baseline foreignCipherData
    (aesGCM foreignCipherData.Key foreignCipherData.IV) rfl
    (fun s' h => by cases s' <;> first | rfl | exact absurd h (by decide)) rfl

/-- C3, as stated, fails: for a generator that reports deprecated usage, both
ContentCipher and ContentCipherWithContext make a generation call and return a
cipher with a nil error instead of the reported error. -/
theorem deprecated_usage_does_not_stop_build :
    deprecatedGenerator.isUsingDeprecatedFeatures = some (some deprecationError) ∧
    (gcmContentCipherBuilder.ContentCipherWithContext scenarioEnv
      ⟨deprecatedGenerator⟩ ⟨1⟩).value.2 = none ∧
    (gcmContentCipherBuilder.ContentCipherWithContext scenarioEnv
      ⟨deprecatedGenerator⟩ ⟨1⟩).value.2 ≠ some deprecationError ∧
    (gcmContentCipherBuilder.ContentCipherWithContext scenarioEnv
      ⟨deprecatedGenerator⟩ ⟨1⟩).value.1.isSome = true ∧
    generatorCalls (gcmContentCipherBuilder.ContentCipherWithContext scenarioEnv
      ⟨deprecatedGenerator⟩ ⟨1⟩).trace = [Event.GenerateCipherData 32 12] ∧
    (gcmContentCipherBuilder.ContentCipher scenarioEnv ⟨deprecatedGenerator⟩).value.2 = none ∧
    (gcmContentCipherBuilder.ContentCipher scenarioEnv
      ⟨deprecatedGenerator⟩).value.2 ≠ some deprecationError ∧
    (gcmContentCipherBuilder.ContentCipher scenarioEnv
      ⟨deprecatedGenerator⟩).value.1.isSome = true ∧
    generatorCalls (gcmContentCipherBuilder.ContentCipher scenarioEnv
      ⟨deprecatedGenerator⟩).trace = [Event.GenerateCipherData 32 12] := by
  refine ⟨rfl, rfl, ?_, rfl, ?_, rfl, ?_, rfl, ?_⟩ <;> decide

/-- C3, amended: for a generator that reports the deprecated-usage error `e`, the
builder method isUsingDeprecatedFeatures returns `e` and makes no generation call;
ContentCipherWithContext and ContentCipher never query the capability and do
exactly what they do for the same generator without it. -/
theorem deprecation_is_reported_by_its_own_method (env : Env) (g : CipherDataGenerator)
    (ctx : Context) (e : GoError)
    (h : g.isUsingDeprecatedFeatures = some (some e)) :
    (gcmContentCipherBuilder.isUsingDeprecatedFeatures ⟨g⟩).value = some e ∧
    generatorCalls (gcmContentCipherBuilder.isUsingDeprecatedFeatures ⟨g⟩).trace = [] ∧
    Event.isUsingDeprecatedFeatures ∉
      (gcmContentCipherBuilder.ContentCipherWithContext env ⟨g⟩ ctx).trace ∧
    Event.isUsingDeprecatedFeatures ∉ (gcmContentCipherBuilder.ContentCipher env ⟨g⟩).trace ∧
    gcmContentCipherBuilder.ContentCipherWithContext env ⟨g⟩ ctx
      = gcmContentCipherBuilder.ContentCipherWithContext env
          ⟨{ g with isUsingDeprecatedFeatures := none }⟩ ctx ∧
    gcmContentCipherBuilder.ContentCipher env ⟨g⟩
      = gcmContentCipherBuilder.ContentCipher env
          ⟨{ g with isUsingDeprecatedFeatures := none }⟩ := by
  have hno : ∀ c : Context, Event.isUsingDeprecatedFeatures ∉
      (gcmContentCipherBuilder.ContentCipherWithContext env ⟨g⟩ c).trace := by
    intro c
    obtain ⟨s, r, hs, _, hfirst⟩ :=
      exists_first_supported g c gcmKeySize gcmNonceSize env.AESGCMNoPadding
    rw [dispatch_of_first_supported env g c s r hs hfirst]
    unfold buildFrom
    cases r.2 <;> cases s <;> simp [Shape.call, trace_newAESGCMContentCipher]
  refine ⟨?_, ?_, hno ctx, hno env.BackgroundContext, rfl, rfl⟩
  · simp only [gcmContentCipherBuilder.isUsingDeprecatedFeatures, h]
  · simp only [gcmContentCipherBuilder.isUsingDeprecatedFeatures, h]
    rfl

theorem deprecation_is_reported_by_its_own_method_witness :
    (gcmContentCipherBuilder.isUsingDeprecatedFeatures ⟨deprecatedGenerator⟩).value
      = some deprecationError ∧
    generatorCalls
      (gcmContentCipherBuilder.isUsingDeprecatedFeatures ⟨deprecatedGenerator⟩).trace = [] ∧
    Event.isUsingDeprecatedFeatures ∉
      (gcmContentCipherBuilder.ContentCipherWithContext scenarioEnv
        ⟨deprecatedGenerator⟩ ⟨1⟩).trace ∧
    Event.isUsingDeprecatedFeatures ∉
      (gcmContentCipherBuilder.ContentCipher scenarioEnv ⟨deprecatedGenerator⟩).trace ∧
    gcmContentCipherBuilder.ContentCipherWithContext scenarioEnv ⟨deprecatedGenerator⟩ ⟨1⟩
      = gcmContentCipherBuilder.ContentCipherWithContext scenarioEnv
          ⟨{ deprecatedGenerator with isUsingDeprecatedFeatures := none }⟩ ⟨1⟩ ∧
    gcmContentCipherBuilder.ContentCipher scenarioEnv ⟨deprecatedGenerator⟩
      = gcmContentCipherBuilder.ContentCipher scenarioEnv
          ⟨{ deprecatedGenerator with isUsingDeprecatedFeatures := none }⟩ :=
  deprecation_is_reported_by_its_own_method scenarioEnv deprecatedGenerator ⟨1⟩
    deprecationError rfl

/-- C4: when the selected generator method returns the error `e`, the build returns
exactly `e` and a nil cipher, and the one generation call is the only call made: no
other generator method, no second call, no engine construction. -/
theorem generator_error_is_returned_unchanged (env : Env) (builder : gcmContentCipherBuilder)
    (ctx : Context) (s : Shape) (cd : CipherData) (e : GoError)
    (hs : builder.generator.invoke s ctx gcmKeySize gcmNonceSize env.AESGCMNoPadding
      = some (cd, some e))
    (hfirst : ∀ s' : Shape, s'.rank < s.rank → builder.generator.supports s' = false) :
    (builder.ContentCipherWithContext env ctx).value = (none, some e) ∧
    (builder.ContentCipherWithContext env ctx).trace
      = [s.call ctx gcmKeySize gcmNonceSize env.AESGCMNoPadding] := by
  obtain ⟨g⟩ := builder
  rw [dispatch_of_first_supported env g ctx s _ hs hfirst]
  exact ⟨rfl, rfl⟩

theorem generator_error_is_returned_unchanged_witness :
    (gcmContentCipherBuilder.ContentCipherWithContext scenarioEnv
      ⟨failingGenerator⟩ ⟨1⟩).value = (none, some generationError) ∧
    (gcmContentCipherBuilder.ContentCipherWithContext scenarioEnv ⟨failingGenerator⟩ ⟨1⟩).trace
      = [Event.GenerateCipherDataWithCEKAlgWithContext ⟨1⟩ 32 12 "AES/GCM/NoPadding"] :=
  generator_error_is_returned_unchanged scenarioEnv ⟨failingGenerator⟩ ⟨1⟩
    Shape.CEKAlgWithContext scenarioCipherData generationError rfl
    (fun s' h => by cases s' <;> exact absurd h (by decide))

/-- C5, as stated, fails: CipherData with a 16-byte key, with a 24-byte key, and
with a 32-byte key and an 11-byte IV all make newAESGCMContentCipher, and
ContentCipherWithContext when a generator returns them, return a cipher together
with a nil error. -/
theorem wrong_lengths_still_build_a_cipher :
    (shortKeyCipherData.Key.length ≠ 32 ∧
      (newAESGCMContentCipher scenarioEnv shortKeyCipherData).value.2 = none ∧
      (newAESGCMContentCipher scenarioEnv shortKeyCipherData).value.1.isSome = true ∧
      (gcmContentCipherBuilder.ContentCipherWithContext scenarioEnv
        ⟨baselineGenerator (shortKeyCipherData, none)⟩ ⟨1⟩).value.2 = none ∧
      (gcmContentCipherBuilder.ContentCipherWithContext scenarioEnv
        ⟨baselineGenerator (shortKeyCipherData, none)⟩ ⟨1⟩).value.1.isSome = true) ∧
    (midKeyCipherData.Key.length ≠ 32 ∧
      (newAESGCMContentCipher scenarioEnv midKeyCipherData).value.2 = none ∧
      (newAESGCMContentCipher scenarioEnv midKeyCipherData).value.1.isSome = true ∧
      (gcmContentCipherBuilder.ContentCipherWithContext scenarioEnv
        ⟨baselineGenerator (midKeyCipherData, none)⟩ ⟨1⟩).value.2 = none ∧
      (gcmContentCipherBuilder.ContentCipherWithContext scenarioEnv
        ⟨baselineGenerator (midKeyCipherData, none)⟩ ⟨1⟩).value.1.isSome = true) ∧
    (shortIVCipherData.IV.length ≠ 12 ∧
      (newAESGCMContentCipher scenarioEnv shortIVCipherData).value.2 = none ∧
      (newAESGCMContentCipher scenarioEnv shortIVCipherData).value.1.isSome = true ∧
      (gcmContentCipherBuilder.ContentCipherWithContext scenarioEnv
        ⟨baselineGenerator (shortIVCipherData, none)⟩ ⟨1⟩).value.2 = none ∧
      (gcmContentCipherBuilder.ContentCipherWithContext scenarioEnv
        ⟨baselineGenerator (shortIVCipherData, none)⟩ ⟨1⟩).value.1.isSome = true) := by
  refine ⟨⟨by decide, rfl, rfl, rfl, rfl⟩, ⟨by decide, rfl, rfl, rfl, rfl⟩,
    ⟨by decide, rfl, rfl, rfl, rfl⟩⟩

/-- C5, amended: CipherData whose key is not 16, 24 or 32 bytes long makes
newAESGCMContentCipher fail with a length error and a nil cipher, and so does
ContentCipherWithContext when the selected generator method returns such
CipherData. newAESGCMContentCipher has no length check of its own: for every engine
constructor it returns that constructor's error with a nil cipher when the
constructor fails, and a cipher with a nil error when it succeeds. Whatever the
input, a cipher is returned only together with a nil error. -/
theorem unsupported_key_length_fails_construction (env : Env) (cd : CipherData)
    (henv : env.newAESGCM = newAESGCM)
    (hkey : cd.Key.length ≠ 16 ∧ cd.Key.length ≠ 24 ∧ cd.Key.length ≠ 32) :
    (∃ e : GoError, e.isLengthError = true ∧
      (newAESGCMContentCipher env cd).value = (none, some e) ∧
      ∀ (builder : gcmContentCipherBuilder) (ctx : Context) (s : Shape),
        builder.generator.invoke s ctx gcmKeySize gcmNonceSize env.AESGCMNoPadding
          = some (cd, none) →
        (∀ s' : Shape, s'.rank < s.rank → builder.generator.supports s' = false) →
        (builder.ContentCipherWithContext env ctx).value = (none, some e)) ∧
    (∀ (env' : Env) (cd' : CipherData) (e' : GoError),
      env'.newAESGCM { cd' with CEKAlgorithm := env'.AESGCMNoPadding, TagLength := "128" }
        = Except.error e' →
      (newAESGCMContentCipher env' cd').value = (none, some e')) ∧
    (∀ (env' : Env) (cd' : CipherData) (cipher : Cipher),
      env'.newAESGCM { cd' with CEKAlgorithm := env'.AESGCMNoPadding, TagLength := "128" }
        = Except.ok cipher →
      (newAESGCMContentCipher env' cd').value
        = (some ⟨{ cd' with CEKAlgorithm := env'.AESGCMNoPadding, TagLength := "128" },
            cipher⟩, none)) ∧
    (∀ (env' : Env) (cd' : CipherData) (cc : aesGCMContentCipher),
      (newAESGCMContentCipher env' cd').value.1 = some cc →
      (newAESGCMContentCipher env' cd').value.2 = none) ∧
    (∀ (env' : Env) (builder : gcmContentCipherBuilder) (ctx : Context)
      (cc : aesGCMContentCipher),
      (builder.ContentCipherWithContext env' ctx).value.1 = some cc →
      (builder.ContentCipherWithContext env' ctx).value.2 = none) := by
  have herr : ∀ (env' : Env) (cd' : CipherData) (e' : GoError),
      env'.newAESGCM { cd' with CEKAlgorithm := env'.AESGCMNoPadding, TagLength := "128" }
        = Except.error e' →
      (newAESGCMContentCipher env' cd').value = (none, some e') := by
    intro env' cd' e' h
    simp only [newAESGCMContentCipher, h]
  have hok : ∀ (env' : Env) (cd' : CipherData) (cipher : Cipher),
      env'.newAESGCM { cd' with CEKAlgorithm := env'.AESGCMNoPadding, TagLength := "128" }
        = Except.ok cipher →
      (newAESGCMContentCipher env' cd').value
        = (some ⟨{ cd' with CEKAlgorithm := env'.AESGCMNoPadding, TagLength := "128" },
            cipher⟩, none) := by
    intro env' cd' cipher h
    simp only [newAESGCMContentCipher, h]
  have hall : ∀ (env' : Env) (cd' : CipherData) (cc : aesGCMContentCipher),
      (newAESGCMContentCipher env' cd').value.1 = some cc →
      (newAESGCMContentCipher env' cd').value.2 = none := by
    intro env' cd' cc
    unfold newAESGCMContentCipher
    dsimp only
    split
    · intro h; cases h
    · intro _; rfl
  refine ⟨?_, herr, hok, hall, ?_⟩
  · have hnew :
        env.newAESGCM { cd with CEKAlgorithm := env.AESGCMNoPadding, TagLength := "128" }
          = Except.error (GoError.keyLength cd.Key.length) := by
      rw [henv]
      simp [newAESGCM, hkey.1, hkey.2.1, hkey.2.2]
    have hval := herr env cd _ hnew
    refine ⟨GoError.keyLength cd.Key.length, rfl, hval, ?_⟩
    intro builder ctx s hs hfirst
    obtain ⟨g⟩ := builder
    rw [dispatch_of_first_supported env g ctx s _ hs hfirst]
    exact hval
  · intro env' builder ctx cc
    obtain ⟨g⟩ := builder
    obtain ⟨s, r, hs, _, hfirst⟩ :=
      exists_first_supported g ctx gcmKeySize gcmNonceSize env'.AESGCMNoPadding
    rw [dispatch_of_first_supported env' g ctx s r hs hfirst]
    unfold buildFrom
    cases hr : r.2 with
    | some err => intro h; cases h
    | none => exact hall env' r.1 cc

theorem unsupported_key_length_fails_construction_witness :
    (∃ e : GoError, e.isLengthError = true ∧
      (newAESGCMContentCipher scenarioEnv oddKeyCipherData).value = (none, some e) ∧
      ∀ (builder : gcmContentCipherBuilder) (ctx : Context) (s : Shape),
        builder.generator.invoke s ctx gcmKeySize gcmNonceSize scenarioEnv.AESGCMNoPadding
          = some (oddKeyCipherData, none) →
        (∀ s' : Shape, s'.rank < s.rank → builder.generator.supports s' = false) →
        (builder.ContentCipherWithContext scenarioEnv ctx).value = (none, some e)) ∧
    (∀ (env' : Env) (cd' : CipherData) (e' : GoError),
      env'.newAESGCM { cd' with CEKAlgorithm := env'.AESGCMNoPadding, TagLength := "128" }
        = Except.error e' →
      (newAESGCMContentCipher env' cd').value = (none, some e')) ∧
    (∀ (env' : Env) (cd' : CipherData) (cipher : Cipher),
      env'.newAESGCM { cd' with CEKAlgorithm := env'.AESGCMNoPadding, TagLength := "128" }
        = Except.ok cipher →
      (newAESGCMContentCipher env' cd').value
        = (some ⟨{ cd' with CEKAlgorithm := env'.AESGCMNoPadding, TagLength := "128" },
            cipher⟩, none)) ∧
    (∀ (env' : Env) (cd' : CipherData) (cc : aesGCMContentCipher),
      (newAESGCMContentCipher env' cd').value.1 = some cc →
      (newAESGCMContentCipher env' cd').value.2 = none) ∧
    (∀ (env' : Env) (builder : gcmContentCipherBuilder) (ctx : Context)
      (cc : aesGCMContentCipher),
      (builder.ContentCipherWithContext env' ctx).value.1 = some cc →
      (builder.ContentCipherWithContext env' ctx).value.2 = none) :=
  unsupported_key_length_fails_construction scenarioEnv oddKeyCipherData rfl
    ⟨by decide, by decide, by decide⟩

/-- C6: the one generation call of ContentCipherWithContext is one of four calls:
the context+algorithm shape with the caller's context, 32, 12 and AESGCMNoPadding;
the algorithm shape with 32, 12 and AESGCMNoPadding; the context shape with the
caller's context, 32 and 12; the baseline shape with 32 and 12. The result of the
build is computed from what the method returns at these arguments. -/
theorem generation_call_has_fixed_arguments (env : Env) (builder : gcmContentCipherBuilder)
    (ctx : Context) :
    (generatorCalls (builder.ContentCipherWithContext env ctx).trace
        = [Event.GenerateCipherDataWithCEKAlgWithContext ctx 32 12 env.AESGCMNoPadding] ∨
     generatorCalls (builder.ContentCipherWithContext env ctx).trace
        = [Event.GenerateCipherDataWithCEKAlg 32 12 env.AESGCMNoPadding] ∨
     generatorCalls (builder.ContentCipherWithContext env ctx).trace
        = [Event.GenerateCipherDataWithContext ctx 32 12] ∨
     generatorCalls (builder.ContentCipherWithContext env ctx).trace
        = [Event.GenerateCipherData 32 12]) ∧
    ∃ (s : Shape) (r : Generated),
      builder.generator.invoke s ctx 32 12 env.AESGCMNoPadding = some r ∧
      generatorCalls (builder.ContentCipherWithContext env ctx).trace
        = [s.call ctx 32 12 env.AESGCMNoPadding] ∧
      (r.2 = none →
        (builder.ContentCipherWithContext env ctx).value
          = (newAESGCMContentCipher env r.1).value) ∧
      (∀ e : GoError, r.2 = some e →
        (builder.ContentCipherWithContext env ctx).value = (none, some e)) := by
  obtain ⟨g⟩ := builder
  obtain ⟨s, r, hs, _, hfirst⟩ :=
    exists_first_supported g ctx gcmKeySize gcmNonceSize env.AESGCMNoPadding
  rw [dispatch_of_first_supported env g ctx s r hs hfirst, generatorCalls_buildFrom]
  refine ⟨?_, s, r, hs, rfl, ?_, ?_⟩
  · cases s
    · exact Or.inl rfl
    · exact Or.inr (Or.inl rfl)
    · exact Or.inr (Or.inr (Or.inl rfl))
    · exact Or.inr (Or.inr (Or.inr rfl))
  · intro h
    simp only [buildFrom, h]
  · intro e h
    simp only [buildFrom, h]

/-- C7: for every plaintext `P` and every CipherData with a 32-byte key and a 12-byte
IV, the cipher built from it encrypts `P` to a stream that reads to the end without
error, and decrypting the bytes read, with the cipher built from the same
CipherData, reads back exactly `P` without error. -/
theorem encrypt_then_decrypt_round_trip (env : Env) (cd : CipherData) (P : Bytes)
    (henv : env.newAESGCM = newAESGCM)
    (hk : cd.Key.length = 32) (hiv : cd.IV.length = 12) :
    ∃ (cc : aesGCMContentCipher) (C : Bytes),
      (newAESGCMContentCipher env cd).value = (some cc, none) ∧
      (cc.EncryptContents ⟨P, none⟩).value.2 = none ∧
      ReadAll (cc.EncryptContents ⟨P, none⟩).value.1 = (C, none) ∧
      (cc.DecryptContents ⟨⟨C, none⟩, false⟩).value.2 = none ∧
      (cc.DecryptContents ⟨⟨C, none⟩, false⟩).value.1.ReadAll = (P, none) := by
  have hnew : env.newAESGCM { cd with CEKAlgorithm := env.AESGCMNoPadding, TagLength := "128" }
      = Except.ok (aesGCM cd.Key cd.IV) := by
    rw [henv]
    simp [newAESGCM, hk]
  refine ⟨⟨{ cd with CEKAlgorithm := env.AESGCMNoPadding, TagLength := "128" },
    aesGCM cd.Key cd.IV⟩, gcmSeal (aesEncryptBlock cd.Key) cd.IV P, ?_, rfl, ?_, rfl, ?_⟩
  · simp only [newAESGCMContentCipher, hnew]
  · simp [aesGCMContentCipher.EncryptContents, ReadAll, aesGCM, hiv]
  · simp [aesGCMContentCipher.DecryptContents, CryptoReadCloser.ReadAll, ReadAll, aesGCM, hiv,
      gcmOpen_gcmSeal]

/-- The scenario of C7: key of 32 zero bytes, IV of 12 zero bytes, plaintext
`hello world`. -/
theorem hello_world_round_trip :
    ∃ (cc : aesGCMContentCipher) (C : Bytes),
      (newAESGCMContentCipher scenarioEnv scenarioCipherData).value = (some cc, none) ∧
      (cc.EncryptContents ⟨helloWorld, none⟩).value.2 = none ∧
      ReadAll (cc.EncryptContents ⟨helloWorld, none⟩).value.1 = (C, none) ∧
      (cc.DecryptContents ⟨⟨C, none⟩, false⟩).value.2 = none ∧
      (cc.DecryptContents ⟨⟨C, none⟩, false⟩).value.1.ReadAll = (helloWorld, none) :=
  encrypt_then_decrypt_round_trip scenarioEnv scenarioCipherData helloWorld rfl
    (by decide) (by decide)

/-- C8: for every content cipher and source stream, DecryptContents returns a nil
error and a CryptoReadCloser whose Body is the source and whose Decrypter is the
engine's Decrypt of the source; closing the returned stream closes the source, and
the only call made is the engine's Decrypt. -/
theorem decrypt_contents_wraps_the_source (cc : aesGCMContentCipher) (src : ReadCloser) :
    (cc.DecryptContents src).value.2 = none ∧
    (cc.DecryptContents src).value.1.Body = src ∧
    (cc.DecryptContents src).value.1.Decrypter = cc.Cipher.Decrypt src.toReader ∧
    (cc.DecryptContents src).value.1.Close.Body = src.Close ∧
    (cc.DecryptContents src).value.1.Close.Body.closed = true ∧
    (cc.DecryptContents src).value.1.ReadAll = ReadAll (cc.Cipher.Decrypt src.toReader) ∧
    (cc.DecryptContents src).trace = [Event.Decrypt src.toReader] :=
  ⟨rfl, rfl, rfl, rfl, rfl, rfl, rfl⟩

/-- C9: for every content cipher and source stream, EncryptContents returns a nil
error and the engine's Encrypt of the source; the only call made is that Encrypt,
so the source is not read before the stream is returned. -/
theorem encrypt_contents_never_fails (cc : aesGCMContentCipher) (src : Reader) :
    (cc.EncryptContents src).value = (cc.Cipher.Encrypt src, none) ∧
    (cc.EncryptContents src).trace = [Event.Encrypt src] ∧
    ∀ r : Reader, Event.Read r ∉ (cc.EncryptContents src).trace := by
  refine ⟨rfl, rfl, ?_⟩
  intro r
  simp [aesGCMContentCipher.EncryptContents]

theorem performAll_eq (cc : aesGCMContentCipher) (calls : List Call) :
    (cc.performAll calls).1 = cc ∧
    ∀ e ∈ (cc.performAll calls).2, ∀ cd : CipherData, e ≠ Event.newAESGCM cd := by
  induction calls with
  | nil => exact ⟨rfl, by intro e he; cases he⟩
  | cons c cs ih =>
    have hstep : (cc.perform c).1 = cc := by cases c <;> rfl
    have htrace : ∀ e ∈ (cc.perform c).2, ∀ cd : CipherData, e ≠ Event.newAESGCM cd := by
      intro e he cd
      cases c <;>
        simp [aesGCMContentCipher.perform, aesGCMContentCipher.EncryptContents,
          aesGCMContentCipher.DecryptContents] at he <;> simp [he]
    simp only [aesGCMContentCipher.performAll, hstep]
    refine ⟨ih.1, ?_⟩
    intro e he cd
    rcases List.mem_append.mp he with h | h
    · exact htrace e (hstep ▸ h) cd
    · exact ih.2 e h cd

/-- C10: after any finite sequence of EncryptContents, DecryptContents and
GetCipherData calls on a content cipher, GetCipherData returns the CipherData it
returned before the calls, field by field, the engine is the one the cipher was
built with, and none of the calls constructs an engine. -/
theorem cipher_data_is_immutable (cc : aesGCMContentCipher) (calls : List Call) :
    (cc.performAll calls).1.GetCipherData = cc.GetCipherData ∧
    (cc.performAll calls).1.GetCipherData.Key = cc.GetCipherData.Key ∧
    (cc.performAll calls).1.GetCipherData.IV = cc.GetCipherData.IV ∧
    (cc.performAll calls).1.GetCipherData.CEKAlgorithm = cc.GetCipherData.CEKAlgorithm ∧
    (cc.performAll calls).1.GetCipherData.TagLength = cc.GetCipherData.TagLength ∧
    (cc.performAll calls).1.Cipher = cc.Cipher ∧
    ∀ cd : CipherData, Event.newAESGCM cd ∉ (cc.performAll calls).2 := by
  have h := performAll_eq cc calls
  rw [h.1]
  refine ⟨rfl, rfl, rfl, rfl, rfl, rfl, ?_⟩
  intro cd hmem
  exact h.2 _ hmem cd rfl

end S3Crypto
